import Mathlib

/-!
Shallow embedding of `src/index.ts` of the `dewatermark` npm client.

The client exposes two operations, `eraseWatermark` and `saveLargeImage`.
Each builds a multipart form body from its options object, issues one HTTP
POST through axios, maps the JSON response into a flat result record, and
normalizes axios failures into a single `Error` whose message prefers the
remote-supplied `message` field.

Modelling choices, all driven by the TypeScript source:
* JavaScript truthiness on optional string fields: `if (options.x)` skips
  both `undefined` and the empty string, so option fields are `Option String`
  and every guard tests `≠ ""` as well.
* The filesystem is a parameter `fsys : String → Option (List Nat)` mapping a
  path to its bytes when the path exists; `fs.existsSync p` is
  `(fsys p).isSome` and `fs.createReadStream p` becomes the part value
  `PartValue.stream p` (the transported bytes being `fsys p`).
* `Buffer.from(s, 'base64')` is the executable decoder `base64Decode`
  (alphabet lookup, non-alphabet characters ignored, 4-to-3 byte groups with
  truncated tails), producing `List Nat` bytes.
* The network is a parameter `net : List FormPart → HttpResult α`: it either
  yields the parsed `response.data` or the thrown error.  Thrown JavaScript
  values are `JsErr`: an axios error (with optional response), a plain
  `Error` with a message, or any other value.
* Each operation returns a run record carrying the settled promise
  (`Except JsErr result`), the list of POST requests actually issued, and the
  `console.error` diagnostic log entries.
-/

/-- A byte, `0 ≤ b < 256`, kept as `Nat`. -/
abbrev Byte := Nat

/-- Value of one base64 alphabet character, `none` for non-alphabet
characters (which Node's lenient decoder skips). -/
def b64Val (c : Char) : Option Nat :=
  if 'A' ≤ c ∧ c ≤ 'Z' then some (c.toNat - 'A'.toNat)
  else if 'a' ≤ c ∧ c ≤ 'z' then some (c.toNat - 'a'.toNat + 26)
  else if '0' ≤ c ∧ c ≤ '9' then some (c.toNat - '0'.toNat + 52)
  else if c = '+' then some 62
  else if c = '/' then some 63
  else none

/-- Decode a list of 6-bit values into bytes, four values to three bytes,
with the conventional truncated tail (two values give one byte, three give
two). -/
def b64Groups : List Nat → List Byte
  | a :: b :: c :: d :: rest =>
      (a * 4 + b / 16) :: (b % 16 * 16 + c / 4) :: (c % 4 * 64 + d) :: b64Groups rest
  | [a, b, c] => [a * 4 + b / 16, b % 16 * 16 + c / 4]
  | [a, b] => [a * 4 + b / 16]
  | _ => []

/-- Embedding of `Buffer.from(s, 'base64')`. -/
def base64Decode (s : String) : List Byte :=
  b64Groups (s.data.filterMap b64Val)

/-- JavaScript `s.split(sep)` for a one-character separator, over the
character list: always at least one (possibly empty) segment. -/
def splitChar (sep : Char) : List Char → List (List Char)
  | [] => [[]]
  | c :: cs =>
      let r := splitChar sep cs
      if c = sep then [] :: r
      else
        match r with
        | g :: gs => (c :: g) :: gs
        | [] => [[c]]

/-- Embedding of `s.split('/').pop() || dflt`: the final `/`-separated
segment of `s`, or `dflt` when that segment is empty. -/
def popFilename (s : String) (dflt : String) : String :=
  let seg : String := ⟨(splitChar '/' s.data).getLastD []⟩
  if seg = "" then dflt else seg

/-- An image source field of type `string | Buffer`. -/
inductive ImgSource
  | str (s : String)
  | buf (b : List Byte)
  deriving DecidableEq, Repr

/-- The value of one multipart form part: a plain text field, a file read
stream `fs.createReadStream path`, or an in-memory `Buffer`. -/
inductive PartValue
  | text (s : String)
  | stream (path : String)
  | buffer (b : List Byte)
  deriving DecidableEq, Repr

/-- One `formData.append(name, value, { filename })` part;
`filename = none` for plain text appends. -/
structure FormPart where
  name : String
  value : PartValue
  filename : Option String
  deriving DecidableEq, Repr

/-- JSON body attached to an error response: the optional `message` field the
catch block reads, plus the rest of the body, kept opaque. -/
structure RespBody where
  message : Option String
  rest : String
  deriving DecidableEq, Repr

/-- The `error.response` of an axios error: HTTP status, status text, and
parsed body. -/
structure AxiosResponse where
  status : Nat
  statusText : String
  data : Option RespBody
  deriving DecidableEq, Repr

/-- A thrown JavaScript value: an axios error (`response` is `none` on pure
transport failures), a plain `Error` with its message, or anything else. -/
inductive JsErr
  | axios (response : Option AxiosResponse) (message : String)
  | js (message : String)
  | other (tag : String)
  deriving DecidableEq, Repr

/-- Embedding of `axios.isAxiosError(error)`. -/
def JsErr.isAxiosError : JsErr → Bool
  | .axios _ _ => true
  | _ => false

/-- Outcome of the awaited `axios.post`: parsed `response.data` on a 2xx
response, or the thrown error. -/
inductive HttpResult (α : Type)
  | success (data : α)
  | failure (error : JsErr)
  deriving DecidableEq, Repr

/-- One `console.error('API Error Details', …)` record:
`error.response?.status`, `error.response?.statusText`,
`error.response?.data`. -/
structure LogEntry where
  status : Option Nat
  statusText : Option String
  data : Option RespBody
  deriving DecidableEq, Repr

/-- Embedding of `error.response?.data?.message` (optional chaining). -/
def remoteMessage (response : Option AxiosResponse) : Option String :=
  (response.bind AxiosResponse.data).bind RespBody.message

/-- Embedding of `error.response?.data?.message || error.message`:
JavaScript `||` also rejects the empty string. -/
def apiErrorMessage (response : Option AxiosResponse) (message : String) : String :=
  match remoteMessage response with
  | some m => if m = "" then message else m
  | none => message

/-- Embedding of the identical catch blocks of both operations: an axios
error is logged and replaced by `new Error('API Error: ' + …)`; any other
error is re-thrown unchanged (and nothing is logged). -/
def handleError (e : JsErr) : JsErr × List LogEntry :=
  match e with
  | .axios response message =>
      (.js ("API Error: " ++ apiErrorMessage response message),
       [⟨response.map AxiosResponse.status, response.map AxiosResponse.statusText,
         response.bind AxiosResponse.data⟩])
  | e => (e, [])

/-- The filesystem: a path maps to its bytes exactly when it exists. -/
abbrev Fsys := String → Option (List Byte)

/-- `EraseWatermarkOptions` from the source. -/
structure EraseWatermarkOptions where
  originalPreviewImage : Option ImgSource
  maskBase : Option String
  maskBrush : Option String
  sessionId : Option String
  removeText : Option Bool
  deriving DecidableEq, Repr

/-- `EraseWatermarkResponse` from the source. -/
structure EraseWatermarkResponse where
  sessionId : String
  imageBase64 : String
  maskBase : String
  watermarkMask : String
  deriving DecidableEq, Repr

/-- `SaveLargeImageOptions` from the source. -/
structure SaveLargeImageOptions where
  originalLargeImage : Option ImgSource
  previewImageToSave : Option String
  previewMaskToSave : Option String
  sessionId : Option String
  removeText : Option Bool
  deriving DecidableEq, Repr

/-- `SaveLargeImageResponse` from the source. -/
structure SaveLargeImageResponse where
  largeImageToSave : String
  deriving DecidableEq, Repr

/-- `edited_image` object of the erase endpoint's success JSON. -/
structure EditedImage where
  image : String
  mask : String
  watermark_mask : String
  deriving DecidableEq, Repr

/-- Success `response.data` of the erase endpoint. -/
structure EraseRespData where
  session_id : String
  edited_image : EditedImage
  deriving DecidableEq, Repr

/-- Success `response.data` of the save-large-image endpoint. -/
structure SaveRespData where
  large_image_to_save : String
  deriving DecidableEq, Repr

/-- Embedding of `options.removeText?.toString() ?? 'true'`. -/
def removeTextField : Option Bool → String
  | some b => if b then "true" else "false"
  | none => "true"

/-- The image-source branch shared verbatim by both operations: an existing
path is streamed under its final path segment (default `image.png`), any
other string is base64-decoded, a Buffer is attached directly, both under
the fixed filename `image.png`. -/
def imageSourcePart (fsys : Fsys) (name : String) : ImgSource → FormPart
  | .str s =>
      if (fsys s).isSome then
        ⟨name, .stream s, some (popFilename s "image.png")⟩
      else
        ⟨name, .buffer (base64Decode s), some "image.png"⟩
  | .buf b => ⟨name, .buffer b, some "image.png"⟩

/-- The `Error` thrown when `eraseWatermark` has neither a truthy image
source nor a truthy session id. -/
def configError : JsErr :=
  .js "Either originalPreviewImage or sessionId must be provided"

/-- An `if (options.x) { formData.append(name, Buffer.from(x, 'base64'),
{ filename }) }` block: a truthy string is base64-decoded and attached
under the given fixed filename.  Used for `mask_base`,
`preview_image_to_save` and `preview_mask_to_save`. -/
def b64BufferParts (name filename : String) : Option String → List FormPart
  | some m =>
      if m = "" then [] else [⟨name, .buffer (base64Decode m), some filename⟩]
  | none => []

/-- An `if (options.x) { formData.append(name, fs.createReadStream(x),
{ filename: x.split('/').pop() || dflt }) }` block: a truthy string is
always streamed as a path.  Used for `mask_brush`. -/
def streamParts (name dflt : String) : Option String → List FormPart
  | some b =>
      if b = "" then [] else [⟨name, .stream b, some (popFilename b dflt)⟩]
  | none => []

/-- An `if (options.sessionId) { formData.append('session_id', x) }` block
(the unconditional one of `saveLargeImage`). -/
def sessionParts : Option String → List FormPart
  | some sid => if sid = "" then [] else [⟨"session_id", .text sid, none⟩]
  | none => []

/-- The `remove_text` append, always last:
`formData.append('remove_text', options.removeText?.toString() ?? 'true')`. -/
def removeTextPart (o : Option Bool) : FormPart :=
  ⟨"remove_text", .text (removeTextField o), none⟩

/-- The mask and remove-text appends of `eraseWatermark`, in source order:
`mask_base` (base64 Buffer, fixed filename), `mask_brush` (read stream,
filename from the final path segment), then `remove_text`. -/
def eraseTailParts (opts : EraseWatermarkOptions) : List FormPart :=
  b64BufferParts "mask_base" "mask_base.jpeg" opts.maskBase ++
  streamParts "mask_brush" "mask_brush.png" opts.maskBrush ++
  [removeTextPart opts.removeText]

/-- The `else if (options.sessionId) … else throw` branch of
`eraseWatermark`. -/
def eraseSessionBranch (opts : EraseWatermarkOptions) : Except JsErr (List FormPart) :=
  match opts.sessionId with
  | some sid =>
      if sid = "" then .error configError
      else .ok (⟨"session_id", .text sid, none⟩ :: eraseTailParts opts)
  | none => .error configError

/-- The synchronous form construction of `eraseWatermark` (everything before
`axios.post`): the truthiness checks on `originalPreviewImage` and
`sessionId`, the throw when both are missing, and the appends in source
order. -/
def buildEraseForm (fsys : Fsys) (opts : EraseWatermarkOptions) :
    Except JsErr (List FormPart) :=
  match opts.originalPreviewImage with
  | some (.str s) =>
      if s = "" then eraseSessionBranch opts
      else .ok (imageSourcePart fsys "original_preview_image" (.str s) :: eraseTailParts opts)
  | some (.buf b) =>
      .ok (imageSourcePart fsys "original_preview_image" (.buf b) :: eraseTailParts opts)
  | none => eraseSessionBranch opts

/-- The `if (options.originalLargeImage)` block of `saveLargeImage`: same
string-or-Buffer handling as the erase image source, but optional. -/
def imageParts (fsys : Fsys) (name : String) : Option ImgSource → List FormPart
  | some (.str s) =>
      if s = "" then [] else [imageSourcePart fsys name (.str s)]
  | some (.buf b) => [imageSourcePart fsys name (.buf b)]
  | none => []

/-- The synchronous form construction of `saveLargeImage`: every append is
guarded only by truthiness, nothing throws, appends in source order. -/
def buildSaveForm (fsys : Fsys) (opts : SaveLargeImageOptions) : List FormPart :=
  imageParts fsys "original_large_image" opts.originalLargeImage ++
  b64BufferParts "preview_image_to_save" "preview_image_to_save.jpeg"
    opts.previewImageToSave ++
  b64BufferParts "preview_mask_to_save" "preview_mask_to_save.jpeg"
    opts.previewMaskToSave ++
  sessionParts opts.sessionId ++
  [removeTextPart opts.removeText]

/-- Result of one `eraseWatermark` call: the settled promise, the POST
requests issued, and the diagnostic log. -/
structure EraseRun where
  result : Except JsErr EraseWatermarkResponse
  requests : List (List FormPart)
  log : List LogEntry
  deriving Repr

/-- Result of one `saveLargeImage` call. -/
structure SaveRun where
  result : Except JsErr SaveLargeImageResponse
  requests : List (List FormPart)
  log : List LogEntry
  deriving Repr

/-- `Dewatermark.eraseWatermark`: build the form (throwing the configuration
error before any network activity when both image source and session id are
missing), POST it once, map a success body field-by-field into
`EraseWatermarkResponse`, and route a thrown error through the catch
block. -/
def eraseWatermark (fsys : Fsys) (opts : EraseWatermarkOptions)
    (net : List FormPart → HttpResult EraseRespData) : EraseRun :=
  match buildEraseForm fsys opts with
  | .error e => ⟨.error e, [], []⟩
  | .ok parts =>
      match net parts with
      | .success d =>
          ⟨.ok ⟨d.session_id, d.edited_image.image, d.edited_image.mask,
                d.edited_image.watermark_mask⟩,
           [parts], []⟩
      | .failure e =>
          let he := handleError e
          ⟨.error he.1, [parts], he.2⟩

/-- `Dewatermark.saveLargeImage`: build the form (never throws), POST it
once, map a success body into `SaveLargeImageResponse`, and route a thrown
error through the catch block. -/
def saveLargeImage (fsys : Fsys) (opts : SaveLargeImageOptions)
    (net : List FormPart → HttpResult SaveRespData) : SaveRun :=
  let parts := buildSaveForm fsys opts
  match net parts with
  | .success d => ⟨.ok ⟨d.large_image_to_save⟩, [parts], []⟩
  | .failure e =>
      let he := handleError e
      ⟨.error he.1, [parts], he.2⟩

deriving instance DecidableEq for Except

/-! ## Helper lemmas about part names and builder shapes -/

theorem imageSourcePart_name (fsys : Fsys) (n : String) (src : ImgSource) :
    (imageSourcePart fsys n src).name = n := by
  cases src with
  | str s =>
      simp only [imageSourcePart]
      split <;> rfl
  | buf b => rfl

theorem mem_b64BufferParts_name {n f : String} {o : Option String} {p : FormPart}
    (hp : p ∈ b64BufferParts n f o) : p.name = n := by
  cases o with
  | none => simp [b64BufferParts] at hp
  | some m =>
      unfold b64BufferParts at hp
      by_cases hm : m = ""
      · simp [hm] at hp
      · simp [hm] at hp
        rw [hp]

theorem mem_streamParts_name {n d : String} {o : Option String} {p : FormPart}
    (hp : p ∈ streamParts n d o) : p.name = n := by
  cases o with
  | none => simp [streamParts] at hp
  | some b =>
      unfold streamParts at hp
      by_cases hb : b = ""
      · simp [hb] at hp
      · simp [hb] at hp
        rw [hp]

theorem mem_sessionParts_name {o : Option String} {p : FormPart}
    (hp : p ∈ sessionParts o) : p.name = "session_id" := by
  cases o with
  | none => simp [sessionParts] at hp
  | some sid =>
      unfold sessionParts at hp
      by_cases hs : sid = ""
      · simp [hs] at hp
      · simp [hs] at hp
        rw [hp]

theorem mem_eraseTailParts_name {opts : EraseWatermarkOptions} {p : FormPart}
    (hp : p ∈ eraseTailParts opts) :
    p.name = "mask_base" ∨ p.name = "mask_brush" ∨ p.name = "remove_text" := by
  unfold eraseTailParts at hp
  rcases List.mem_append.mp hp with hp | hp
  · rcases List.mem_append.mp hp with hp | hp
    · exact Or.inl (mem_b64BufferParts_name hp)
    · exact Or.inr (Or.inl (mem_streamParts_name hp))
  · rw [List.mem_singleton] at hp
    rw [hp]
    exact Or.inr (Or.inr rfl)

theorem eraseSessionBranch_ok {opts : EraseWatermarkOptions} {parts : List FormPart}
    (h : eraseSessionBranch opts = .ok parts) :
    ∃ sid, opts.sessionId = some sid ∧ sid ≠ "" ∧
      parts = ⟨"session_id", .text sid, none⟩ :: eraseTailParts opts := by
  unfold eraseSessionBranch at h
  cases hsid : opts.sessionId with
  | none => simp [hsid] at h
  | some sid =>
      simp only [hsid] at h
      by_cases hs : sid = ""
      · simp [hs] at h
      · simp only [if_neg hs] at h
        exact ⟨sid, rfl, hs, (Except.ok.inj h).symm⟩

theorem buildEraseForm_ok_shape {fsys : Fsys} {opts : EraseWatermarkOptions}
    {parts : List FormPart} (h : buildEraseForm fsys opts = .ok parts) :
    ∃ hd, parts = hd :: eraseTailParts opts ∧
      (hd.name = "original_preview_image" ∨ hd.name = "session_id") := by
  unfold buildEraseForm at h
  cases hoi : opts.originalPreviewImage with
  | none =>
      simp only [hoi] at h
      obtain ⟨sid, -, -, hparts⟩ := eraseSessionBranch_ok h
      exact ⟨_, hparts, Or.inr rfl⟩
  | some src =>
      cases src with
      | str s =>
          simp only [hoi] at h
          by_cases hs : s = ""
          · simp only [if_pos hs] at h
            obtain ⟨sid, -, -, hparts⟩ := eraseSessionBranch_ok h
            exact ⟨_, hparts, Or.inr rfl⟩
          · simp only [if_neg hs] at h
            exact ⟨_, (Except.ok.inj h).symm, Or.inl (imageSourcePart_name ..)⟩
      | buf b =>
          simp only [hoi] at h
          exact ⟨_, (Except.ok.inj h).symm, Or.inl (imageSourcePart_name ..)⟩

/-! ## C1 -/

/-- C1: an `eraseWatermark` call whose options hold neither an image source
nor a session id fails synchronously with the configuration error and issues
no HTTP POST. -/
theorem eraseWatermark_no_source_no_session (fsys : Fsys)
    (opts : EraseWatermarkOptions) (net : List FormPart → HttpResult EraseRespData)
    (h1 : opts.originalPreviewImage = none) (h2 : opts.sessionId = none) :
    (eraseWatermark fsys opts net).result = .error configError ∧
    (eraseWatermark fsys opts net).requests = [] := by
  have hb : buildEraseForm fsys opts = .error configError := by
    simp [buildEraseForm, eraseSessionBranch, h1, h2]
  simp [eraseWatermark, hb]

/-- C1 witness: the concrete all-`none` options object. -/
theorem eraseWatermark_no_source_no_session_witness :
    (eraseWatermark (fun _ => none) ⟨none, none, none, none, none⟩
        (fun _ => .success ⟨"s", ⟨"a", "b", "c"⟩⟩)).result = .error configError ∧
    (eraseWatermark (fun _ => none) ⟨none, none, none, none, none⟩
        (fun _ => .success ⟨"s", ⟨"a", "b", "c"⟩⟩)).requests = [] :=
  eraseWatermark_no_source_no_session _ _ _ rfl rfl

/-! ## C4 -/

/-- C4: on a successful call whose response JSON is
`{ session_id: s, edited_image: { image: a, mask: b, watermark_mask: c } }`,
`eraseWatermark` returns exactly
`{ sessionId: s, imageBase64: a, maskBase: b, watermarkMask: c }` —
field renaming only, no value mutation. -/
theorem eraseWatermark_success_mapping (fsys : Fsys)
    (opts : EraseWatermarkOptions) (net : List FormPart → HttpResult EraseRespData)
    (parts : List FormPart) (s a b c : String)
    (hb : buildEraseForm fsys opts = .ok parts)
    (hn : net parts = .success ⟨s, ⟨a, b, c⟩⟩) :
    (eraseWatermark fsys opts net).result = .ok ⟨s, a, b, c⟩ := by
  simp [eraseWatermark, hb, hn]

/-- C4 witness: a session-only call whose simulated response is
`{ session_id: "abc", edited_image: { image: "A", mask: "B",
watermark_mask: "C" } }`. -/
theorem eraseWatermark_success_mapping_witness :
    (eraseWatermark (fun _ => none) ⟨none, none, none, some "sess", none⟩
        (fun _ => .success ⟨"abc", ⟨"A", "B", "C"⟩⟩)).result =
      .ok ⟨"abc", "A", "B", "C"⟩ :=
  eraseWatermark_success_mapping _ _ _
    [⟨"session_id", .text "sess", none⟩, removeTextPart none]
    "abc" "A" "B" "C" rfl rfl

/-! ## C10 -/

/-- C10: when a non-empty image source and a session id are both supplied,
the image source wins: the form is built (not rejected), its head is the
`original_preview_image` part, and no `session_id` part appears anywhere in
it. -/
theorem eraseWatermark_source_precedence (fsys : Fsys)
    (opts : EraseWatermarkOptions) (src : ImgSource) (sid : String)
    (h1 : opts.originalPreviewImage = some src) (hne : src ≠ .str "")
    (_h2 : opts.sessionId = some sid) :
    buildEraseForm fsys opts =
      .ok (imageSourcePart fsys "original_preview_image" src :: eraseTailParts opts) ∧
    ∀ p ∈ imageSourcePart fsys "original_preview_image" src :: eraseTailParts opts,
      p.name ≠ "session_id" := by
  constructor
  · cases src with
    | str s =>
        have hs : s ≠ "" := fun h => hne (by rw [h])
        simp [buildEraseForm, h1, hs]
    | buf b => simp [buildEraseForm, h1]
  · intro p hp
    rcases List.mem_cons.mp hp with hp | hp
    · rw [hp, imageSourcePart_name]
      decide
    · rcases mem_eraseTailParts_name hp with hn | hn | hn <;> rw [hn] <;> decide

/-- C10 witness: a Buffer image source together with a session id. -/
theorem eraseWatermark_source_precedence_witness :
    buildEraseForm (fun _ => none) ⟨some (.buf [7]), none, none, some "sess", none⟩ =
      .ok (imageSourcePart (fun _ => none) "original_preview_image" (.buf [7]) ::
           eraseTailParts ⟨some (.buf [7]), none, none, some "sess", none⟩) ∧
    ∀ p ∈ imageSourcePart (fun _ => none) "original_preview_image" (.buf [7]) ::
           eraseTailParts ⟨some (.buf [7]), none, none, some "sess", none⟩,
      p.name ≠ "session_id" :=
  eraseWatermark_source_precedence _ _ _ "sess" rfl (by decide) rfl

/-! ## C2 -/

/-- C2 counterexample: the empty string supplied as the image source is not
an existing path (the filesystem here is empty), yet it is neither
base64-decoded nor attached — JavaScript truthiness makes the builder skip
it entirely, and the issued POST body holds only the `session_id` and
`remove_text` parts. -/
theorem eraseWatermark_empty_string_source_counterexample :
    ((fun _ => none : Fsys) "" = none) ∧
    (eraseWatermark (fun _ => none) ⟨some (.str ""), none, none, some "sess", none⟩
        (fun _ => .success ⟨"s", ⟨"a", "b", "c"⟩⟩)).requests =
      [[⟨"session_id", .text "sess", none⟩, ⟨"remove_text", .text "true", none⟩]] :=
  ⟨rfl, rfl⟩

/-- C2 (amended): for every NON-EMPTY string supplied as the image source,
path existence is checked first and is the sole disambiguator: an existing
path is streamed with filename equal to its final path segment (falling back
to `image.png` when that segment is empty), and any other non-empty string
is base64-decoded and attached as `image.png`.  The empty string is treated
as an absent image source. -/
theorem eraseWatermark_string_source_amended (fsys : Fsys)
    (opts : EraseWatermarkOptions) (s : String)
    (h1 : opts.originalPreviewImage = some (.str s)) (hs : s ≠ "") :
    buildEraseForm fsys opts =
      .ok ((if (fsys s).isSome then
              ⟨"original_preview_image", .stream s, some (popFilename s "image.png")⟩
            else
              ⟨"original_preview_image", .buffer (base64Decode s), some "image.png"⟩) ::
           eraseTailParts opts) := by
  simp [buildEraseForm, h1, hs, imageSourcePart]

/-- C2 witness: the existing path `a/b.png` is streamed under filename
`b.png`. -/
theorem eraseWatermark_string_source_amended_witness :
    buildEraseForm (fun q => if q = "a/b.png" then some [1, 2, 3] else none)
        ⟨some (.str "a/b.png"), none, none, none, none⟩ =
      .ok [⟨"original_preview_image", .stream "a/b.png", some "b.png"⟩,
           ⟨"remove_text", .text "true", none⟩] := by
  have h := eraseWatermark_string_source_amended
      (fun q => if q = "a/b.png" then some [1, 2, 3] else none)
      ⟨some (.str "a/b.png"), none, none, none, none⟩ "a/b.png" rfl (by decide)
  rw [h]
  decide

/-! ## C5 -/

theorem filter_name_nil {l : List FormPart} {n : String}
    (h : ∀ p ∈ l, p.name ≠ n) : l.filter (fun p => p.name == n) = [] := by
  rw [List.filter_eq_nil_iff]
  intro p hp
  simp [h p hp]

theorem mem_imageParts_name {fsys : Fsys} {n : String} {o : Option ImgSource}
    {p : FormPart} (hp : p ∈ imageParts fsys n o) : p.name = n := by
  cases o with
  | none => simp [imageParts] at hp
  | some src =>
      cases src with
      | str s =>
          unfold imageParts at hp
          by_cases hs : s = ""
          · simp [hs] at hp
          · simp [hs] at hp
            rw [hp, imageSourcePart_name]
      | buf b =>
          simp [imageParts] at hp
          rw [hp, imageSourcePart_name]

theorem eraseTailParts_filter_removeText (opts : EraseWatermarkOptions) :
    (eraseTailParts opts).filter (fun p => p.name == "remove_text") =
      [removeTextPart opts.removeText] := by
  have h1 : (b64BufferParts "mask_base" "mask_base.jpeg" opts.maskBase).filter
      (fun p => p.name == "remove_text") = [] :=
    filter_name_nil (fun p hp => by rw [mem_b64BufferParts_name hp]; decide)
  have h2 : (streamParts "mask_brush" "mask_brush.png" opts.maskBrush).filter
      (fun p => p.name == "remove_text") = [] :=
    filter_name_nil (fun p hp => by rw [mem_streamParts_name hp]; decide)
  unfold eraseTailParts
  rw [List.filter_append, List.filter_append, h1, h2]
  rfl

/-- C5: both builders always emit exactly one `remove_text` part, a text
field whose value is `"true"` when the `removeText` option is unset, and the
serialized boolean (`"true"`/`"false"`) when it is set. -/
theorem removeText_defaults_and_serialization (fsys : Fsys)
    (eopts : EraseWatermarkOptions) (sopts : SaveLargeImageOptions)
    (parts : List FormPart) (hb : buildEraseForm fsys eopts = .ok parts) :
    parts.filter (fun p => p.name == "remove_text") =
      [⟨"remove_text", .text (removeTextField eopts.removeText), none⟩] ∧
    (buildSaveForm fsys sopts).filter (fun p => p.name == "remove_text") =
      [⟨"remove_text", .text (removeTextField sopts.removeText), none⟩] ∧
    removeTextField none = "true" ∧
    removeTextField (some false) = "false" ∧
    removeTextField (some true) = "true" := by
  obtain ⟨hd, hparts, hname⟩ := buildEraseForm_ok_shape hb
  refine ⟨?_, ?_, rfl, rfl, rfl⟩
  · have hhd : (hd.name == "remove_text") = false := by
      rcases hname with h | h <;> rw [h] <;> decide
    rw [hparts, List.filter_cons, if_neg (by simp [hhd]),
        eraseTailParts_filter_removeText]
    rfl
  · have g1 : (imageParts fsys "original_large_image" sopts.originalLargeImage).filter
        (fun p => p.name == "remove_text") = [] :=
      filter_name_nil (fun p hp => by rw [mem_imageParts_name hp]; decide)
    have g2 : (b64BufferParts "preview_image_to_save" "preview_image_to_save.jpeg"
        sopts.previewImageToSave).filter (fun p => p.name == "remove_text") = [] :=
      filter_name_nil (fun p hp => by rw [mem_b64BufferParts_name hp]; decide)
    have g3 : (b64BufferParts "preview_mask_to_save" "preview_mask_to_save.jpeg"
        sopts.previewMaskToSave).filter (fun p => p.name == "remove_text") = [] :=
      filter_name_nil (fun p hp => by rw [mem_b64BufferParts_name hp]; decide)
    have g4 : (sessionParts sopts.sessionId).filter
        (fun p => p.name == "remove_text") = [] :=
      filter_name_nil (fun p hp => by rw [mem_sessionParts_name hp]; decide)
    unfold buildSaveForm
    rw [List.filter_append, List.filter_append, List.filter_append, List.filter_append,
        g1, g2, g3, g4]
    rfl

/-- C5 witness: `removeText` explicitly `false` in both operations. -/
theorem removeText_defaults_and_serialization_witness :
    ([⟨"session_id", .text "sess", none⟩, removeTextPart (some false)] : List FormPart).filter
        (fun p => p.name == "remove_text") =
      [⟨"remove_text", .text (removeTextField (some false)), none⟩] ∧
    (buildSaveForm (fun _ => none) ⟨none, none, none, none, some false⟩).filter
        (fun p => p.name == "remove_text") =
      [⟨"remove_text", .text (removeTextField (some false)), none⟩] ∧
    removeTextField none = "true" ∧
    removeTextField (some false) = "false" ∧
    removeTextField (some true) = "true" :=
  removeText_defaults_and_serialization (fun _ => none)
    ⟨none, none, none, some "sess", some false⟩ ⟨none, none, none, none, some false⟩
    [⟨"session_id", .text "sess", none⟩, removeTextPart (some false)] rfl

/-! ## C7 -/

/-- C7: `saveLargeImage` with only `sessionId` and `previewImageToSave` set
builds a body of exactly the decoded preview part, the `session_id` text
part and the default `remove_text = "true"` part, and on success the
response field `large_image_to_save` is returned unchanged as
`largeImageToSave`. -/
theorem saveLargeImage_session_preview_only (fsys : Fsys)
    (opts : SaveLargeImageOptions) (net : List FormPart → HttpResult SaveRespData)
    (sid p x : String)
    (h1 : opts.originalLargeImage = none) (h2 : opts.previewImageToSave = some p)
    (hp : p ≠ "") (h3 : opts.previewMaskToSave = none)
    (h4 : opts.sessionId = some sid) (hsid : sid ≠ "") (h5 : opts.removeText = none)
    (hn : net (buildSaveForm fsys opts) = .success ⟨x⟩) :
    buildSaveForm fsys opts =
      [⟨"preview_image_to_save", .buffer (base64Decode p),
        some "preview_image_to_save.jpeg"⟩,
       ⟨"session_id", .text sid, none⟩,
       ⟨"remove_text", .text "true", none⟩] ∧
    (saveLargeImage fsys opts net).result = .ok ⟨x⟩ := by
  constructor
  · simp [buildSaveForm, imageParts, b64BufferParts, sessionParts, removeTextPart,
      removeTextField, h1, h2, h3, h4, h5, hp, hsid]
  · simp [saveLargeImage, hn]

/-- C7 witness: `sessionId = "sess"`, `previewImageToSave = "QUJD"`, and a
simulated response `{ large_image_to_save: "X" }`. -/
theorem saveLargeImage_session_preview_only_witness :
    buildSaveForm (fun _ => none) ⟨none, some "QUJD", none, some "sess", none⟩ =
      [⟨"preview_image_to_save", .buffer (base64Decode "QUJD"),
        some "preview_image_to_save.jpeg"⟩,
       ⟨"session_id", .text "sess", none⟩,
       ⟨"remove_text", .text "true", none⟩] ∧
    (saveLargeImage (fun _ => none) ⟨none, some "QUJD", none, some "sess", none⟩
        (fun _ => .success ⟨"X"⟩)).result = .ok ⟨"X"⟩ :=
  saveLargeImage_session_preview_only (fun _ => none)
    ⟨none, some "QUJD", none, some "sess", none⟩ (fun _ => .success ⟨"X"⟩)
    "sess" "QUJD" "X" rfl rfl (by decide) rfl rfl (by decide) rfl rfl

/-! ## C8 -/

/-- C8 counterexample: an empty-string `maskBase` is skipped rather than
decoded and attached, and the `maskBrush` value `"a/"` (whose final path
segment is empty) is attached under the fallback filename `mask_brush.png`,
not under its final path segment. -/
theorem eraseWatermark_mask_counterexample :
    buildEraseForm (fun _ => none) ⟨some (.buf [7]), some "", some "a/", none, none⟩ =
      .ok [⟨"original_preview_image", .buffer [7], some "image.png"⟩,
           ⟨"mask_brush", .stream "a/", some "mask_brush.png"⟩,
           ⟨"remove_text", .text "true", none⟩] ∧
    (⟨(splitChar '/' "a/".data).getLastD []⟩ : String) = "" := by
  decide

/-- C8 (amended): a supplied NON-EMPTY `maskBase` is always base64-decoded
and attached under the fixed filename `mask_base.jpeg`, never interpreted as
a filesystem path (the conclusion holds for every filesystem, so existence
is never consulted); a supplied NON-EMPTY `maskBrush` is always streamed as
a filesystem path under its final path segment, falling back to
`mask_brush.png` when that segment is empty.  Empty-string mask values are
skipped. -/
theorem eraseWatermark_masks_amended (fsys : Fsys) (opts : EraseWatermarkOptions)
    (parts : List FormPart) (hb : buildEraseForm fsys opts = .ok parts) :
    (∀ m, opts.maskBase = some m → m ≠ "" →
      parts.filter (fun p => p.name == "mask_base") =
        [⟨"mask_base", .buffer (base64Decode m), some "mask_base.jpeg"⟩]) ∧
    (∀ b, opts.maskBrush = some b → b ≠ "" →
      parts.filter (fun p => p.name == "mask_brush") =
        [⟨"mask_brush", .stream b, some (popFilename b "mask_brush.png")⟩]) := by
  obtain ⟨hd, hparts, hname⟩ := buildEraseForm_ok_shape hb
  subst hparts
  constructor
  · intro m hm hne
    have hhd : (hd.name == "mask_base") = false := by
      rcases hname with h | h <;> rw [h] <;> decide
    rw [List.filter_cons, if_neg (by simp [hhd])]
    unfold eraseTailParts
    rw [List.filter_append, List.filter_append, hm]
    have hA : (b64BufferParts "mask_base" "mask_base.jpeg" (some m)).filter
        (fun p => p.name == "mask_base") =
        [⟨"mask_base", .buffer (base64Decode m), some "mask_base.jpeg"⟩] := by
      simp only [b64BufferParts]
      rw [if_neg hne]
      rfl
    have hB : (streamParts "mask_brush" "mask_brush.png" opts.maskBrush).filter
        (fun p => p.name == "mask_base") = [] :=
      filter_name_nil (fun p hp => by rw [mem_streamParts_name hp]; decide)
    rw [hA, hB]
    rfl
  · intro b hbr hne
    have hhd : (hd.name == "mask_brush") = false := by
      rcases hname with h | h <;> rw [h] <;> decide
    rw [List.filter_cons, if_neg (by simp [hhd])]
    unfold eraseTailParts
    rw [List.filter_append, List.filter_append, hbr]
    have hA : (b64BufferParts "mask_base" "mask_base.jpeg" opts.maskBase).filter
        (fun p => p.name == "mask_brush") = [] :=
      filter_name_nil (fun p hp => by rw [mem_b64BufferParts_name hp]; decide)
    have hB : (streamParts "mask_brush" "mask_brush.png" (some b)).filter
        (fun p => p.name == "mask_brush") =
        [⟨"mask_brush", .stream b, some (popFilename b "mask_brush.png")⟩] := by
      simp only [streamParts]
      rw [if_neg hne]
      rfl
    rw [hA, hB]
    rfl

/-- C8 witness: non-empty `maskBase = "QUJD"` and `maskBrush = "x/y.png"`
alongside a Buffer image source. -/
theorem eraseWatermark_masks_amended_witness :
    ([⟨"original_preview_image", .buffer [7], some "image.png"⟩,
      ⟨"mask_base", .buffer (base64Decode "QUJD"), some "mask_base.jpeg"⟩,
      ⟨"mask_brush", .stream "x/y.png", some (popFilename "x/y.png" "mask_brush.png")⟩,
      ⟨"remove_text", .text "true", none⟩] : List FormPart).filter
        (fun p => p.name == "mask_base") =
      [⟨"mask_base", .buffer (base64Decode "QUJD"), some "mask_base.jpeg"⟩] ∧
    ([⟨"original_preview_image", .buffer [7], some "image.png"⟩,
      ⟨"mask_base", .buffer (base64Decode "QUJD"), some "mask_base.jpeg"⟩,
      ⟨"mask_brush", .stream "x/y.png", some (popFilename "x/y.png" "mask_brush.png")⟩,
      ⟨"remove_text", .text "true", none⟩] : List FormPart).filter
        (fun p => p.name == "mask_brush") =
      [⟨"mask_brush", .stream "x/y.png", some (popFilename "x/y.png" "mask_brush.png")⟩] :=
  ⟨(eraseWatermark_masks_amended (fun _ => none)
      ⟨some (.buf [7]), some "QUJD", some "x/y.png", none, none⟩ _ rfl).1
      "QUJD" rfl (by decide),
   (eraseWatermark_masks_amended (fun _ => none)
      ⟨some (.buf [7]), some "QUJD", some "x/y.png", none, none⟩ _ rfl).2
      "x/y.png" rfl (by decide)⟩

/-! ## C3 -/

/-- C3 counterexample: two failed calls that differ in remote status (500 vs
404), status text and response body surface the IDENTICAL error object, a
plain `Error` whose message is only `API Error: Request failed` — so the
surfaced error cannot carry the remote status, status text or body. -/
theorem uniformError_counterexample :
    (eraseWatermark (fun _ => none) ⟨none, none, none, some "sess", none⟩
        (fun _ => .failure (.axios
          (some ⟨500, "Internal Server Error", some ⟨none, "bodyA"⟩⟩)
          "Request failed"))).result =
      (eraseWatermark (fun _ => none) ⟨none, none, none, some "sess", none⟩
        (fun _ => .failure (.axios
          (some ⟨404, "Not Found", some ⟨none, "bodyB"⟩⟩)
          "Request failed"))).result ∧
    (eraseWatermark (fun _ => none) ⟨none, none, none, some "sess", none⟩
        (fun _ => .failure (.axios
          (some ⟨500, "Internal Server Error", some ⟨none, "bodyA"⟩⟩)
          "Request failed"))).result =
      .error (.js "API Error: Request failed") :=
  ⟨rfl, rfl⟩

/-- C3 (amended): a failed HTTP call recognized as an axios error surfaces a
single uniform error carrying only a message (`API Error: ` followed by the
remote-supplied message when available, else the transport failure
description); the remote status, status text and response body are not
carried on the error but are emitted to the diagnostic log, in both
`eraseWatermark` and `saveLargeImage`. -/
theorem uniformError_amended (fsys : Fsys) (eopts : EraseWatermarkOptions)
    (sopts : SaveLargeImageOptions) (parts : List FormPart)
    (net : List FormPart → HttpResult EraseRespData)
    (snet : List FormPart → HttpResult SaveRespData)
    (resp : Option AxiosResponse) (msg : String)
    (hb : buildEraseForm fsys eopts = .ok parts)
    (hn : net parts = .failure (.axios resp msg))
    (hs : snet (buildSaveForm fsys sopts) = .failure (.axios resp msg)) :
    (eraseWatermark fsys eopts net).result =
      .error (.js ("API Error: " ++ apiErrorMessage resp msg)) ∧
    (eraseWatermark fsys eopts net).log =
      [⟨resp.map AxiosResponse.status, resp.map AxiosResponse.statusText,
        resp.bind AxiosResponse.data⟩] ∧
    (saveLargeImage fsys sopts snet).result =
      .error (.js ("API Error: " ++ apiErrorMessage resp msg)) ∧
    (saveLargeImage fsys sopts snet).log =
      [⟨resp.map AxiosResponse.status, resp.map AxiosResponse.statusText,
        resp.bind AxiosResponse.data⟩] := by
  refine ⟨?_, ?_, ?_, ?_⟩ <;>
    simp [eraseWatermark, saveLargeImage, hb, hn, hs, handleError]

/-- C3 witness: a 500 response with body
`{ message: "quota exceeded", … }` against both operations. -/
theorem uniformError_amended_witness :
    (eraseWatermark (fun _ => none) ⟨none, none, none, some "sess", none⟩
        (fun _ => .failure (.axios
          (some ⟨500, "Internal Server Error", some ⟨some "quota exceeded", "r"⟩⟩)
          "Request failed"))).result =
      .error (.js ("API Error: " ++ apiErrorMessage
        (some ⟨500, "Internal Server Error", some ⟨some "quota exceeded", "r"⟩⟩)
        "Request failed")) ∧
    (eraseWatermark (fun _ => none) ⟨none, none, none, some "sess", none⟩
        (fun _ => .failure (.axios
          (some ⟨500, "Internal Server Error", some ⟨some "quota exceeded", "r"⟩⟩)
          "Request failed"))).log =
      [⟨(some ⟨500, "Internal Server Error",
          some ⟨some "quota exceeded", "r"⟩⟩ : Option AxiosResponse).map
          AxiosResponse.status,
        (some ⟨500, "Internal Server Error",
          some ⟨some "quota exceeded", "r"⟩⟩ : Option AxiosResponse).map
          AxiosResponse.statusText,
        (some ⟨500, "Internal Server Error",
          some ⟨some "quota exceeded", "r"⟩⟩ : Option AxiosResponse).bind
          AxiosResponse.data⟩] ∧
    (saveLargeImage (fun _ => none) ⟨none, none, none, none, none⟩
        (fun _ => .failure (.axios
          (some ⟨500, "Internal Server Error", some ⟨some "quota exceeded", "r"⟩⟩)
          "Request failed"))).result =
      .error (.js ("API Error: " ++ apiErrorMessage
        (some ⟨500, "Internal Server Error", some ⟨some "quota exceeded", "r"⟩⟩)
        "Request failed")) ∧
    (saveLargeImage (fun _ => none) ⟨none, none, none, none, none⟩
        (fun _ => .failure (.axios
          (some ⟨500, "Internal Server Error", some ⟨some "quota exceeded", "r"⟩⟩)
          "Request failed"))).log =
      [⟨(some ⟨500, "Internal Server Error",
          some ⟨some "quota exceeded", "r"⟩⟩ : Option AxiosResponse).map
          AxiosResponse.status,
        (some ⟨500, "Internal Server Error",
          some ⟨some "quota exceeded", "r"⟩⟩ : Option AxiosResponse).map
          AxiosResponse.statusText,
        (some ⟨500, "Internal Server Error",
          some ⟨some "quota exceeded", "r"⟩⟩ : Option AxiosResponse).bind
          AxiosResponse.data⟩] :=
  uniformError_amended (fun _ => none) ⟨none, none, none, some "sess", none⟩
    ⟨none, none, none, none, none⟩
    [⟨"session_id", .text "sess", none⟩, removeTextPart none]
    (fun _ => .failure (.axios
      (some ⟨500, "Internal Server Error", some ⟨some "quota exceeded", "r"⟩⟩)
      "Request failed"))
    (fun _ => .failure (.axios
      (some ⟨500, "Internal Server Error", some ⟨some "quota exceeded", "r"⟩⟩)
      "Request failed"))
    (some ⟨500, "Internal Server Error", some ⟨some "quota exceeded", "r"⟩⟩)
    "Request failed" rfl rfl rfl

/-! ## C6 -/

/-- C6: on an axios failure, the surfaced error's message contains the
remote-supplied `message` field when one is present, and otherwise is
`API Error: ` followed by the transport failure description, in both
operations. -/
theorem errorMessage_prefers_remote (fsys : Fsys) (eopts : EraseWatermarkOptions)
    (sopts : SaveLargeImageOptions) (parts : List FormPart)
    (net : List FormPart → HttpResult EraseRespData)
    (snet : List FormPart → HttpResult SaveRespData)
    (resp : Option AxiosResponse) (msg : String)
    (hb : buildEraseForm fsys eopts = .ok parts)
    (hn : net parts = .failure (.axios resp msg))
    (hs : snet (buildSaveForm fsys sopts) = .failure (.axios resp msg)) :
    (∀ m, remoteMessage resp = some m →
      ∃ pre post,
        (eraseWatermark fsys eopts net).result = .error (.js (pre ++ m ++ post)) ∧
        (saveLargeImage fsys sopts snet).result = .error (.js (pre ++ m ++ post))) ∧
    (remoteMessage resp = none →
      (eraseWatermark fsys eopts net).result = .error (.js ("API Error: " ++ msg)) ∧
      (saveLargeImage fsys sopts snet).result = .error (.js ("API Error: " ++ msg))) := by
  have he : (eraseWatermark fsys eopts net).result =
      .error (.js ("API Error: " ++ apiErrorMessage resp msg)) := by
    simp [eraseWatermark, hb, hn, handleError]
  have hsv : (saveLargeImage fsys sopts snet).result =
      .error (.js ("API Error: " ++ apiErrorMessage resp msg)) := by
    simp [saveLargeImage, hs, handleError]
  constructor
  · intro m hm
    by_cases hm0 : m = ""
    · subst hm0
      have hmsg : apiErrorMessage resp msg = msg := by
        simp [apiErrorMessage, hm]
      exact ⟨"API Error: ", msg, by rw [he, hmsg]; rfl, by rw [hsv, hmsg]; rfl⟩
    · have hmsg : apiErrorMessage resp msg = m := by
        simp [apiErrorMessage, hm, hm0]
      refine ⟨"API Error: ", "", ?_, ?_⟩
      · rw [he, hmsg, String.append_empty]
      · rw [hsv, hmsg, String.append_empty]
  · intro hm
    have hmsg : apiErrorMessage resp msg = msg := by
      simp [apiErrorMessage, hm]
    exact ⟨by rw [he, hmsg], by rw [hsv, hmsg]⟩

/-- C6 witness: a non-2xx response with body `{ message: "quota exceeded" }`
yields errors whose message contains `quota exceeded` in both operations. -/
theorem errorMessage_prefers_remote_witness :
    ∃ pre post,
      (eraseWatermark (fun _ => none) ⟨none, none, none, some "sess", none⟩
          (fun _ => .failure (.axios
            (some ⟨402, "Payment Required", some ⟨some "quota exceeded", "r"⟩⟩)
            "Request failed"))).result =
        .error (.js (pre ++ "quota exceeded" ++ post)) ∧
      (saveLargeImage (fun _ => none) ⟨none, none, none, none, none⟩
          (fun _ => .failure (.axios
            (some ⟨402, "Payment Required", some ⟨some "quota exceeded", "r"⟩⟩)
            "Request failed"))).result =
        .error (.js (pre ++ "quota exceeded" ++ post)) :=
  (errorMessage_prefers_remote (fun _ => none) ⟨none, none, none, some "sess", none⟩
    ⟨none, none, none, none, none⟩
    [⟨"session_id", .text "sess", none⟩, removeTextPart none]
    (fun _ => .failure (.axios
      (some ⟨402, "Payment Required", some ⟨some "quota exceeded", "r"⟩⟩)
      "Request failed"))
    (fun _ => .failure (.axios
      (some ⟨402, "Payment Required", some ⟨some "quota exceeded", "r"⟩⟩)
      "Request failed"))
    (some ⟨402, "Payment Required", some ⟨some "quota exceeded", "r"⟩⟩)
    "Request failed" rfl rfl rfl).1 "quota exceeded" rfl

/-! ## C9 -/

/-- C9: a failure not recognized as an axios error is re-raised to the
caller as the very same error value, unwrapped, and nothing is logged, in
both operations. -/
theorem nonAxios_error_rethrown (fsys : Fsys) (eopts : EraseWatermarkOptions)
    (sopts : SaveLargeImageOptions) (parts : List FormPart)
    (net : List FormPart → HttpResult EraseRespData)
    (snet : List FormPart → HttpResult SaveRespData) (e : JsErr)
    (hb : buildEraseForm fsys eopts = .ok parts)
    (hn : net parts = .failure e)
    (hs : snet (buildSaveForm fsys sopts) = .failure e)
    (hax : e.isAxiosError = false) :
    (eraseWatermark fsys eopts net).result = .error e ∧
    (eraseWatermark fsys eopts net).log = [] ∧
    (saveLargeImage fsys sopts snet).result = .error e ∧
    (saveLargeImage fsys sopts snet).log = [] := by
  have hh : handleError e = (e, []) := by
    cases e with
    | axios r m => simp [JsErr.isAxiosError] at hax
    | js m => rfl
    | other t => rfl
  refine ⟨?_, ?_, ?_, ?_⟩ <;>
    simp [eraseWatermark, saveLargeImage, hb, hn, hs, hh]

/-- C9 witness: a local filesystem-style failure (`ENOENT: no such file`)
propagates unchanged through both operations. -/
theorem nonAxios_error_rethrown_witness :
    (eraseWatermark (fun _ => none) ⟨none, none, none, some "sess", none⟩
        (fun _ => .failure (.other "ENOENT: no such file"))).result =
      .error (.other "ENOENT: no such file") ∧
    (eraseWatermark (fun _ => none) ⟨none, none, none, some "sess", none⟩
        (fun _ => .failure (.other "ENOENT: no such file"))).log = [] ∧
    (saveLargeImage (fun _ => none) ⟨none, none, none, none, none⟩
        (fun _ => .failure (.other "ENOENT: no such file"))).result =
      .error (.other "ENOENT: no such file") ∧
    (saveLargeImage (fun _ => none) ⟨none, none, none, none, none⟩
        (fun _ => .failure (.other "ENOENT: no such file"))).log = [] :=
  nonAxios_error_rethrown (fun _ => none) ⟨none, none, none, some "sess", none⟩
    ⟨none, none, none, none, none⟩
    [⟨"session_id", .text "sess", none⟩, removeTextPart none]
    (fun _ => .failure (.other "ENOENT: no such file"))
    (fun _ => .failure (.other "ENOENT: no such file"))
    (.other "ENOENT: no such file") rfl rfl rfl rfl
